import Mathlib

-- Verification development for the PDF_Export_Merger repository.
-- Shallow embedding of src/utils.py, src/svg_processor.py and src/pdf_merger.py.
-- Strings are modelled as `List Char`; file-system and subprocess outcomes are
-- modelled as explicit boolean fields of the input structures.

-- ===== generic character/string helpers =====

/-- ASCII case lowering, the fragment of Python `str.lower` used on filename stems. -/
def lowerChar (c : Char) : Char :=
  if 'A' ≤ c ∧ c ≤ 'Z' then Char.ofNat (c.toNat + 32) else c

/-- Python `\s` character class (ASCII fragment): space, tab, newline, carriage
return, vertical tab, form feed. -/
def isPySpace (c : Char) : Bool :=
  c = ' ' || c = '\t' || c = '\n' || c = '\r' || c = Char.ofNat 11 || c = Char.ofNat 12

/-- Value of a digit string, as Python `int()` on a `\d+` match. -/
def digitsVal (ds : List Char) : Nat :=
  ds.foldl (fun a c => a * 10 + (c.toNat - 48)) 0

/-- Consume a literal pattern from the front of the input; `some rest` on success. -/
def dropLit : List Char → List Char → Option (List Char)
  | [], l => some l
  | _ :: _, [] => none
  | p :: ps, c :: cs => if c = p then dropLit ps cs else none

/-- Python `pat in s` substring test. -/
def containsSub (l pat : List Char) : Bool :=
  match l with
  | [] => pat.isEmpty
  | c :: cs => pat.isPrefixOf (c :: cs) || containsSub cs pat

/-- Lexicographic strict comparison of code-point sequences: Python `str` `<`. -/
def lexLt : List Char → List Char → Bool
  | [], [] => false
  | [], _ :: _ => true
  | _ :: _, [] => false
  | a :: as, b :: bs => if a < b then true else if b < a then false else lexLt as bs

/-- Python `str` `<=`, the order used by `list.sort(key=lambda x: str(x))`. -/
def lexLe (a b : List Char) : Bool :=
  !(lexLt b a)

-- ===== src/utils.py : regex fragments used by get_svg_pages_smart =====

/-- Match of `pg[\.\s]*(\d+)[,\-]\s*(\d+)` anchored at the head of the input
(utils.py line 74), returning the two captured numbers. -/
def matchRangeAt (l : List Char) : Option (Nat × Nat) :=
  match dropLit "pg".data l with
  | none => none
  | some r0 =>
    let r1 := r0.dropWhile (fun c => c = '.' || isPySpace c)
    let d1 := r1.takeWhile Char.isDigit
    if d1.isEmpty then none else
    match r1.drop d1.length with
    | sep :: r2 =>
      if sep = ',' || sep = '-' then
        let r3 := r2.dropWhile isPySpace
        let d2 := r3.takeWhile Char.isDigit
        if d2.isEmpty then none else some (digitsVal d1, digitsVal d2)
      else none
    | [] => none

/-- `re.search` of the page-range pattern: leftmost match anywhere in the input. -/
def searchRange : List Char → Option (Nat × Nat)
  | [] => none
  | c :: cs =>
    match matchRangeAt (c :: cs) with
    | some r => some r
    | none => searchRange cs

/-- Match of `pg[\.\s]*(\d+)` anchored at the head of the input (utils.py line 84). -/
def matchSingleAt (l : List Char) : Option Nat :=
  match dropLit "pg".data l with
  | none => none
  | some r0 =>
    let r1 := r0.dropWhile (fun c => c = '.' || isPySpace c)
    let d1 := r1.takeWhile Char.isDigit
    if d1.isEmpty then none else some (digitsVal d1)

/-- `re.search` of the single-page pattern: leftmost match anywhere in the input. -/
def searchSingle : List Char → Option Nat
  | [] => none
  | c :: cs =>
    match matchSingleAt (c :: cs) with
    | some r => some r
    | none => searchSingle cs

/-- Match of `id="(page\d+|Page\d+)"` anchored at the head of the input
(utils.py line 91), returning the page number and the rest after the match. -/
def matchIdAt (l : List Char) : Option (Nat × List Char) :=
  match dropLit "id=\"".data l with
  | none => none
  | some r0 =>
    let r1 :=
      match dropLit "page".data r0 with
      | some r => some r
      | none => dropLit "Page".data r0
    match r1 with
    | none => none
    | some r =>
      let ds := r.takeWhile Char.isDigit
      if ds.isEmpty then none else
      match r.drop ds.length with
      | '"' :: r2 => some (digitsVal ds, r2)
      | _ => none

/-- `re.findall` of the page-id pattern: left-to-right non-overlapping matches.
The fuel argument bounds the scan; the input's length is always sufficient
because every step consumes at least one character. -/
def scanPageIds : Nat → List Char → List Nat
  | 0, _ => []
  | _ + 1, [] => []
  | fuel + 1, c :: cs =>
    match matchIdAt (c :: cs) with
    | some (n, rest) => n :: scanPageIds fuel rest
    | none => scanPageIds fuel cs

/-- Numbers captured by `re.findall(r'id="(page\d+|Page\d+)"', content)` followed by
the trailing-digit extraction of utils.py lines 96-100. -/
def pageIdNums (content : String) : List Nat :=
  scanPageIds content.data.length content.data

/-- Split at the first `>`: characters before it and the rest after it. -/
def splitAtGt : List Char → Option (List Char × List Char)
  | [] => none
  | c :: cs =>
    if c = '>' then some ([], cs)
    else
      match splitAtGt cs with
      | some pr => some (c :: pr.1, pr.2)
      | none => none

/-- Match of `<g[^>]*inkscape:groupmode="layer"[^>]*>` anchored at the head of the
input (utils.py line 115): the whole tag text and the rest after the closing `>`. -/
def matchLayerAt (l : List Char) : Option (List Char × List Char) :=
  match l with
  | '<' :: 'g' :: rest =>
    (match splitAtGt rest with
     | some (inner, after) =>
       if containsSub inner "inkscape:groupmode=\"layer\"".data then
         some ('<' :: 'g' :: (inner ++ ['>']), after)
       else none
     | none => none)
  | _ => none

/-- `re.findall` of the layer-tag pattern, fuel-bounded like `scanPageIds`. -/
def scanLayerTags : Nat → List Char → List (List Char)
  | 0, _ => []
  | _ + 1, [] => []
  | fuel + 1, c :: cs =>
    match matchLayerAt (c :: cs) with
    | some (tag, rest) => tag :: scanLayerTags fuel rest
    | none => scanLayerTags fuel cs

/-- Match of `inkscape:label="([^"]+)"` anchored at the head of the input
(utils.py line 121), returning the captured label. -/
def matchLabelAt (l : List Char) : Option (List Char) :=
  match dropLit "inkscape:label=\"".data l with
  | none => none
  | some r0 =>
    let lab := r0.takeWhile (fun c => !(c = '"'))
    if lab.isEmpty then none else
    match r0.drop lab.length with
    | '"' :: _ => some lab
    | _ => none

/-- `re.search` of the label pattern inside one layer tag. -/
def searchLabel : List Char → Option (List Char)
  | [] => none
  | c :: cs =>
    match matchLabelAt (c :: cs) with
    | some lab => some lab
    | none => searchLabel cs

/-- utils.py lines 119-123: a layer tag counts as a page layer when it mentions
`inkscape:label=`, the label regex matches, and the lowered label contains `page`. -/
def layerIsPage (tag : List Char) : Bool :=
  if containsSub tag "inkscape:label=".data then
    match searchLabel tag with
    | some lab => containsSub (lab.map lowerChar) "page".data
    | none => false
  else false

/-- Match of `viewBox="[^"]*"` anchored at the head of the input (utils.py
line 131), returning the rest after the match. -/
def matchViewBoxAt (l : List Char) : Option (List Char) :=
  match dropLit "viewBox=\"".data l with
  | none => none
  | some r0 =>
    let v := r0.takeWhile (fun c => !(c = '"'))
    match r0.drop v.length with
    | '"' :: r2 => some r2
    | _ => none

/-- Count of `re.findall(r'viewBox="[^"]*"', content)`, fuel-bounded. -/
def countViewBoxes : Nat → List Char → Nat
  | 0, _ => 0
  | _ + 1, [] => 0
  | fuel + 1, c :: cs =>
    match matchViewBoxAt (c :: cs) with
    | some rest => countViewBoxes fuel rest + 1
    | none => countViewBoxes fuel cs

-- ===== src/utils.py : get_svg_pages_smart / get_svg_pages_accurate =====

/-- One SVG input as the estimator sees it: the filename stem, the file content,
whether opening/reading the file succeeds, whether `stat()` succeeds, and the
`st_size` it reports. -/
structure SvgInput where
  stem : String
  content : String
  readable : Bool
  statOk : Bool
  size : Nat
deriving DecidableEq

/-- METHOD 2 of `get_svg_pages_smart` (utils.py lines 91-111): collect page ids,
sort their numbers, and if the least is 0 or 1 and there are at most 20 of them,
return the maximum (plus one when zero-based); otherwise fall through (`none`). -/
def method2 (content : String) : Option Nat :=
  match pageIdNums content with
  | [] => none
  | n :: rest =>
    let sorted := List.insertionSort (fun a b => a ≤ b) (n :: rest)
    match sorted with
    | [] => none
    | f :: _ =>
      if (f = 0 ∨ f = 1) ∧ (n :: rest).length ≤ 20 then
        some (if f = 1 then sorted.foldl max 0 else sorted.foldl max 0 + 1)
      else none

/-- METHOD 3 of `get_svg_pages_smart` (utils.py lines 113-127): count layer tags
whose label mentions `page`; return that count when positive. -/
def method3 (content : String) : Option Nat :=
  match scanLayerTags content.data.length content.data with
  | [] => none
  | t :: ts =>
    let pageLayers := ((t :: ts).filter layerIsPage).length
    if 0 < pageLayers then some pageLayers else none

/-- METHOD 4 of `get_svg_pages_smart` (utils.py lines 129-134): count `viewBox`
attributes; return the count when more than one. -/
def method4 (content : String) : Option Nat :=
  let n := countViewBoxes content.data.length content.data
  if 1 < n then some n else none

/-- Structural part of `get_svg_pages_smart`: METHOD 2, then METHOD 3, then
METHOD 4, defaulting to 1 (utils.py lines 89-138). -/
def smartStructural (content : String) : Nat :=
  match method2 content with
  | some n => n
  | none =>
    match method3 content with
    | some n => n
    | none =>
      match method4 content with
      | some n => n
      | none => 1

/-- `get_svg_pages_smart` after the filename range check failed: the single-page
filename check (utils.py lines 84-87), then the structural methods. -/
def smartNoRange (filename : List Char) (content : String) : Nat :=
  match searchSingle filename with
  | some _ => 1
  | none => smartStructural content

/-- Body of `get_svg_pages_smart` on the lowered stem and the content
(utils.py lines 69-138). -/
def smartBody (filename : List Char) (content : String) : Nat :=
  match searchRange filename with
  | some (st, en) => if st ≤ en then en - st + 1 else smartNoRange filename content
  | none => smartNoRange filename content

/-- `get_svg_pages_smart` (utils.py lines 56-142). Any exception while reading the
file is caught and yields 1. -/
def get_svg_pages_smart (s : SvgInput) : Nat :=
  if s.readable = true then smartBody (s.stem.data.map lowerChar) s.content else 1

/-- Single-page fallback inside the sanity block of `get_svg_pages_accurate`
(utils.py lines 185-189). -/
def sanitySingle (filename : List Char) : Option Nat :=
  match searchSingle filename with
  | some _ => some 1
  | none => none

/-- Filename-based adjustment inside the sanity block of `get_svg_pages_accurate`
(utils.py lines 172-189): only tried when the lowered stem contains `pg`. -/
def sanityAdjust (filename : List Char) : Option Nat :=
  if containsSub filename "pg".data then
    match searchRange filename with
    | some (st, en) => if st ≤ en then some (en - st + 1) else sanitySingle filename
    | none => sanitySingle filename
  else none

/-- `get_svg_pages_accurate` (utils.py lines 144-200). The `svg_path.stat()` call
on line 157 is not guarded by any try/except, so when stat fails the exception
escapes: that outcome is `none`. All other outcomes are `some` of the returned
count. -/
def get_svg_pages_accurate (s : SvgInput) : Option Nat :=
  let count := get_svg_pages_smart s
  if s.statOk = false then none
  else if 20 < count then
    if s.size < count * 5000 then
      match sanityAdjust (s.stem.data.map lowerChar) with
      | some n => some n
      | none => if 50 < count then some 10 else some (max 1 count)
    else if 50 < count then some 10 else some (max 1 count)
  else some (max 1 count)

-- ===== src/utils.py : sanitize_filename, and the per-page output name =====

/-- The invalid characters of utils.py line 226. -/
def invalidChars : List Char := ['<', '>', ':', '"', '/', '\\', '|', '?', '*']

/-- One round of `filename.replace(char, '_')` for a single character pattern. -/
def replaceChar (s : List Char) (c : Char) : List Char :=
  s.map (fun x => if x = c then '_' else x)

/-- `sanitize_filename` (utils.py lines 224-229): fold the replacements over the
invalid characters in order. -/
def sanitize_filename (filename : List Char) : List Char :=
  invalidChars.foldl replaceChar filename

/-- Python `f"{page_num:03d}"`: decimal digits left-padded with zeros to width 3. -/
def pad3 (n : Nat) : List Char :=
  if n < 10 then '0' :: '0' :: (Nat.repr n).data
  else if n < 100 then '0' :: (Nat.repr n).data
  else (Nat.repr n).data

/-- The per-page output file name of svg_processor.py lines 141-143:
`f"{safe_name}_page{page_num:03d}"` plus the `.pdf` suffix. -/
def export_pdf_name (stem : List Char) (page_num : Nat) : List Char :=
  sanitize_filename stem ++ "_page".data ++ pad3 page_num ++ ".pdf".data

-- ===== src/svg_processor.py : export_svg_page and _fix_wide_page =====

/-- The three export strategies of svg_processor.py lines 153-161. -/
inductive Strategy where
  | byId : Strategy
  | byArea : Strategy
  | wholeDoc : Strategy
deriving DecidableEq

/-- Environment of one `export_svg_page` call: outcomes of the subprocess calls and
of the file-system and pypdf checks that the code performs. -/
structure ExportEnv where
  byIdOk : Bool
  byAreaOk : Bool
  wholeOk : Bool
  fileWritten : Bool
  fileSize : Nat
  readPdfOk : Bool
  hasPages : Bool
  width : ℚ
  fixAreaOk : Bool
  fixFileWritten : Bool
  fixReadOk : Bool
  fixHasPages : Bool
deriving DecidableEq

/-- Whether one strategy's method returns True (svg_processor.py lines 154-161);
the whole-document lambda is `... if page_num == 1 else False`. -/
def methodSucceeds (e : ExportEnv) (page_num : Nat) : Strategy → Bool
  | Strategy.byId => e.byIdOk
  | Strategy.byArea => e.byAreaOk
  | Strategy.wholeDoc => (page_num == 1) && e.wholeOk

/-- The fixed order in which `export_svg_page` tries its methods. -/
def methodOrder : List Strategy := [Strategy.byId, Strategy.byArea, Strategy.wholeDoc]

/-- The loop of svg_processor.py lines 163-169: first method that returns True. -/
def tryMethods (e : ExportEnv) (page_num : Nat) : Option Strategy :=
  methodOrder.find? (methodSucceeds e page_num)

/-- Result of one page export: the file produced by the first successful strategy,
or the file produced by the wide-page area retry. -/
inductive ExportResult where
  | original : ExportResult
  | fixedByArea : ExportResult
deriving DecidableEq

/-- `_fix_wide_page` (svg_processor.py lines 212-239): the wide PDF is deleted,
then the area strategy is retried; the new file is returned only when the retry
succeeded, the file exists, and pypdf reads it with at least one page. -/
def fix_wide_page (e : ExportEnv) : Option ExportResult :=
  if e.fixAreaOk = true then
    if e.fixFileWritten = true then
      if e.fixReadOk = true then
        if e.fixHasPages = true then some ExportResult.fixedByArea else none
      else none
    else none
  else none

/-- `export_svg_page` (svg_processor.py lines 138-199): try the methods in order;
on success check the output file, and when pypdf reads a first page wider than
2000 points, hand over to `_fix_wide_page`. A pypdf failure or an empty page list
skips the dimension check and returns the file as is. -/
def export_svg_page (e : ExportEnv) (page_num : Nat) : Option ExportResult :=
  match tryMethods e page_num with
  | none => none
  | some _ =>
    if e.fileWritten = true ∧ 0 < e.fileSize then
      if e.readPdfOk = true then
        if e.hasPages = true then
          if 2000 < e.width then fix_wide_page e
          else some ExportResult.original
        else some ExportResult.original
      else some ExportResult.original
    else none

-- ===== src/pdf_merger.py : merge_pdfs =====

/-- One entry of the list handed to `merge_pdfs`, together with the file-system
and pypdf outcomes for it: its path string, whether it exists, its size, whether
the whole pypdf read block succeeds, and its page count. `blankOk` is the outcome
of the `writer.add_blank_page` call in the exception handler. -/
structure PdfFile where
  path : List Char
  present : Bool
  size : Nat
  readOk : Bool
  numPages : Nat
  blankOk : Bool
deriving DecidableEq

/-- One page of the merged output: a real first page of an input file, or a blank
placeholder page with the given width and height in points. -/
inductive OutPage where
  | real : List Char → Nat → OutPage
  | blank : Nat → Nat → OutPage
deriving DecidableEq

/-- Pages contributed by one entry of the loop of pdf_merger.py lines 24-90:
missing, empty and zero-page files are skipped (`continue`); an exception during
the read block adds one blank 612x792 page when possible; otherwise only the
first page (index 0) is added. -/
def mergeStep (f : PdfFile) : List OutPage :=
  if f.present = false then []
  else if f.size = 0 then []
  else if f.readOk = false then
    (if f.blankOk = true then [OutPage.blank 612 792] else [])
  else if f.numPages = 0 then []
  else [OutPage.real f.path 0]

/-- The sort order of pdf_merger.py line 22: `pdf_files.sort(key=lambda x: str(x))`. -/
def fileLe (a b : PdfFile) : Prop := lexLe a.path b.path = true

instance fileLeDec : DecidableRel fileLe :=
  fun a b => inferInstanceAs (Decidable (lexLe a.path b.path = true))

/-- Concatenate the contributions of the entries in list order. -/
def appendPages : List PdfFile → List OutPage
  | [] => []
  | f :: fs => mergeStep f ++ appendPages fs

/-- `merge_pdfs` (pdf_merger.py lines 11-104), modelled as the page list the writer
holds when it is written out: the input list is first sorted by path string
(line 22), then each entry contributes its pages in sorted order. -/
def merge_pdfs (files : List PdfFile) : List OutPage :=
  appendPages (List.insertionSort fileLe files)

-- ===== helper lemmas =====

theorem lexLt_asymm (x : List Char) : ∀ y, lexLt x y = true → lexLt y x = false := by
  induction x with
  | nil =>
    intro y h
    cases y with
    | nil => simp [lexLt] at h
    | cons b bs => rfl
  | cons a as ih =>
    intro y h
    cases y with
    | nil => simp [lexLt] at h
    | cons b bs =>
      simp only [lexLt] at h ⊢
      by_cases hab : a < b
      · have hba : ¬ b < a := lt_asymm hab
        simp [hab, hba]
      · by_cases hba : b < a
        · simp [hab, hba] at h
        · simp only [hab, hba, if_false] at h ⊢
          exact ih bs h

theorem mergeStep_cases (f : PdfFile) :
    mergeStep f = [] ∨ mergeStep f = [OutPage.real f.path 0] ∨
      mergeStep f = [OutPage.blank 612 792] := by
  unfold mergeStep
  split_ifs <;> simp

theorem appendPages_length (l : List PdfFile) : (appendPages l).length ≤ l.length := by
  induction l with
  | nil => simp [appendPages]
  | cons f fs ih =>
    have hf : (mergeStep f).length ≤ 1 := by
      rcases mergeStep_cases f with h | h | h <;> rw [h] <;> simp
    simp only [appendPages, List.length_append, List.length_cons]
    omega

-- ===== concrete inputs used by the claims =====

/-- A one-page, readable PDF entry whose path sorts first. -/
def fileA : PdfFile := ⟨"a.pdf".data, true, 9, true, 1, true⟩

/-- A one-page, readable PDF entry whose path sorts second. -/
def fileB : PdfFile := ⟨"b.pdf".data, true, 9, true, 1, true⟩

-- ===== C1 =====

/-- C1 counterexample: handed the caller order `[B, A]`, `merge_pdfs` does not
preserve it — line 22 re-sorts by filename, so A's page precedes B's page. -/
theorem c1_counterexample :
    merge_pdfs [fileB, fileA] = mergeStep fileA ++ mergeStep fileB ∧
    merge_pdfs [fileB, fileA] ≠ mergeStep fileB ++ mergeStep fileA := by decide

/-- C1 amended: `merge_pdfs` sorts its input by path string, so for two entries
with `a.path < b.path` the output is a's pages then b's pages, whichever order
the caller handed them in. In particular the user order `[A, B]` is emitted as
all of A before all of B, but only because the lexicographic sort agrees with it. -/
theorem c1_sorted_order (a b : PdfFile) (h : lexLt a.path b.path = true) :
    merge_pdfs [a, b] = mergeStep a ++ mergeStep b ∧
    merge_pdfs [b, a] = mergeStep a ++ mergeStep b := by
  have hba : lexLt b.path a.path = false := lexLt_asymm a.path b.path h
  have hab : fileLe a b := by unfold fileLe lexLe; rw [hba]; rfl
  have hnab : ¬ fileLe b a := by unfold fileLe lexLe; rw [h]; simp
  constructor
  · unfold merge_pdfs
    simp [List.insertionSort, List.orderedInsert, hab, appendPages]
  · unfold merge_pdfs
    simp [List.insertionSort, List.orderedInsert, hab, hnab, appendPages]

/-- C1 witness: the amended statement at the concrete pair `fileA`, `fileB`. -/
theorem c1_sorted_order_witness :
    merge_pdfs [fileB, fileA] = mergeStep fileA ++ mergeStep fileB :=
  (c1_sorted_order fileA fileB (by decide)).2

-- ===== C2 =====

/-- C2 counterexample: a missing entry, a zero-byte entry and a zero-page entry
each contribute nothing — no blank page is substituted, so a merge of one such
entry yields zero pages instead of one. -/
theorem c2_counterexample :
    merge_pdfs [⟨"gone.pdf".data, false, 5, true, 3, true⟩] = [] ∧
    merge_pdfs [⟨"zero.pdf".data, true, 0, true, 3, true⟩] = [] ∧
    merge_pdfs [⟨"nopages.pdf".data, true, 9, true, 0, true⟩] = [] := by decide

/-- C2 amended: only an entry whose pypdf read block raises gets the blank
612x792 placeholder (and only when adding the blank succeeds); entries that are
missing, zero-byte or zero-page are skipped outright, so the output can be
shorter than the input list. -/
theorem c2_blank_on_exception (f : PdfFile) (hp : f.present = true)
    (hs : f.size ≠ 0) (hr : f.readOk = false) (hb : f.blankOk = true) :
    mergeStep f = [OutPage.blank 612 792] := by
  simp [mergeStep, hp, hs, hr, hb]

/-- C2 witness: the amended statement at a concrete corrupt entry. -/
theorem c2_blank_on_exception_witness :
    mergeStep ⟨"corrupt.pdf".data, true, 5, false, 0, true⟩ = [OutPage.blank 612 792] :=
  c2_blank_on_exception ⟨"corrupt.pdf".data, true, 5, false, 0, true⟩ rfl (by decide) rfl rfl

-- ===== C10 =====

/-- C10: each input entry contributes at most one page — its first page, one
blank placeholder, or nothing — so the merged output never has more pages than
there are input entries. -/
theorem c10_at_most_one_page_each :
    (∀ f : PdfFile, mergeStep f = [] ∨ mergeStep f = [OutPage.real f.path 0] ∨
      mergeStep f = [OutPage.blank 612 792]) ∧
    ∀ files : List PdfFile, (merge_pdfs files).length ≤ files.length := by
  constructor
  · exact mergeStep_cases
  · intro files
    calc (merge_pdfs files).length
        ≤ (List.insertionSort fileLe files).length := appendPages_length _
      _ = files.length := List.length_insertionSort _ _

-- ===== C3 =====

/-- An SVG content engineered to carry the sixty page-like ids page1 .. page60. -/
def c3content : String := "id=\"page1\" id=\"page2\" id=\"page3\" id=\"page4\" id=\"page5\" id=\"page6\" id=\"page7\" id=\"page8\" id=\"page9\" id=\"page10\" id=\"page11\" id=\"page12\" id=\"page13\" id=\"page14\" id=\"page15\" id=\"page16\" id=\"page17\" id=\"page18\" id=\"page19\" id=\"page20\" id=\"page21\" id=\"page22\" id=\"page23\" id=\"page24\" id=\"page25\" id=\"page26\" id=\"page27\" id=\"page28\" id=\"page29\" id=\"page30\" id=\"page31\" id=\"page32\" id=\"page33\" id=\"page34\" id=\"page35\" id=\"page36\" id=\"page37\" id=\"page38\" id=\"page39\" id=\"page40\" id=\"page41\" id=\"page42\" id=\"page43\" id=\"page44\" id=\"page45\" id=\"page46\" id=\"page47\" id=\"page48\" id=\"page49\" id=\"page50\" id=\"page51\" id=\"page52\" id=\"page53\" id=\"page54\" id=\"page55\" id=\"page56\" id=\"page57\" id=\"page58\" id=\"page59\" id=\"page60\""

/-- The C3 input: sixty page ids, a stem with no page hint, a readable file. -/
def c3input : SvgInput := ⟨"drawings", c3content, true, true, 5000⟩

/-- An input whose smart estimate exceeds 50: just the two ids page1 and page60. -/
def c3clampInput : SvgInput := ⟨"drawings", "id=\"page1\" id=\"page60\"", true, true, 100⟩

set_option maxRecDepth 40000 in
/-- C3 counterexample: on the engineered sixty-id input the estimator returns 1,
not 10 — sixty ids exceed the 20-id bound of the structural scan, so the scan is
skipped and the default of 1 applies; the clamp never fires. -/
theorem c3_counterexample :
    get_svg_pages_accurate c3input ≠ some 10 ∧
    get_svg_pages_accurate c3input = some 1 := by decide

set_option maxRecDepth 40000 in
/-- C3 amended: the sixty-id input yields 1; the clamp value 10 is reached when
the smart estimate itself exceeds 50 while the id count stays within 20 — for
example the two ids page1 and page60 give a smart estimate of 60, which the
sanity stage of `get_svg_pages_accurate` clamps to 10. -/
theorem c3_clamp_behaviour :
    get_svg_pages_accurate c3input = some 1 ∧
    get_svg_pages_smart c3clampInput = 60 ∧
    get_svg_pages_accurate c3clampInput = some 10 := by decide

-- ===== C4 =====

theorem sanityAdjust_pos (fn : List Char) (n : Nat) (h : sanityAdjust fn = some n) :
    1 ≤ n := by
  unfold sanityAdjust sanitySingle at h
  split at h
  · split at h
    · split at h
      · injection h with h2
        omega
      · split at h
        · injection h with h2
          omega
        · exact absurd h (by simp)
    · split at h
      · injection h with h2
        omega
      · exact absurd h (by simp)
  · exact absurd h (by simp)

/-- C4 amended: whenever the `stat()` call succeeds, the estimate never raises and
is an integer greater than or equal to 1, whatever the stem and content are; a
missing file instead makes `get_svg_pages_accurate` raise from the unguarded
`svg_path.stat()` on line 157. -/
theorem c4_positive_when_stat_ok (s : SvgInput) (h : s.statOk = true) :
    ∃ n, get_svg_pages_accurate s = some n ∧ 1 ≤ n := by
  unfold get_svg_pages_accurate
  rw [h]
  simp only [Bool.true_eq_false, if_false]
  split
  · split
    · split
      · next n heq => exact ⟨n, rfl, sanityAdjust_pos _ n heq⟩
      · split
        · exact ⟨10, rfl, by omega⟩
        · exact ⟨_, rfl, le_max_left 1 _⟩
    · split
      · exact ⟨10, rfl, by omega⟩
      · exact ⟨_, rfl, le_max_left 1 _⟩
  · exact ⟨_, rfl, le_max_left 1 _⟩

/-- C4 witness: the amended statement at a concrete well-behaved input. -/
theorem c4_positive_witness :
    ∃ n, get_svg_pages_accurate ⟨"doc", "hello", true, true, 50⟩ = some n ∧ 1 ≤ n :=
  c4_positive_when_stat_ok ⟨"doc", "hello", true, true, 50⟩ rfl

/-- C4 counterexample: for a missing file the estimate raises (modelled `none`)
instead of returning an integer, refuting the never-throws contract. -/
theorem c4_counterexample :
    get_svg_pages_accurate ⟨"doc", "", false, false, 0⟩ = none := by decide

-- ===== C5 =====

/-- C5: when the lowered stem matches the page-range pattern with start at most
end, `get_svg_pages_smart` returns end - start + 1; when no range matches but
the single-page pattern does, it returns 1 — in both cases whatever the file
content is, since the filename checks precede the structural methods. -/
theorem c5_filename_hint (s : SvgInput) (hr : s.readable = true) :
    (∀ st en, searchRange (s.stem.data.map lowerChar) = some (st, en) → st ≤ en →
      get_svg_pages_smart s = en - st + 1) ∧
    (searchRange (s.stem.data.map lowerChar) = none →
      ∀ k, searchSingle (s.stem.data.map lowerChar) = some k →
      get_svg_pages_smart s = 1) := by
  constructor
  · intro st en hsr hle
    unfold get_svg_pages_smart
    rw [hr, if_pos rfl]
    unfold smartBody
    rw [hsr]
    simp [hle]
  · intro hn k hs
    unfold get_svg_pages_smart
    rw [hr, if_pos rfl]
    unfold smartBody
    rw [hn]
    unfold smartNoRange
    rw [hs]

/-- C5 witness: `drawing_pg3-5` gives 3 and `plan_pg7` gives 1, with arbitrary
content. -/
theorem c5_filename_hint_witness :
    get_svg_pages_smart ⟨"Drawing_Pg3-5", "ignored content", true, true, 42⟩ = 3 ∧
    get_svg_pages_smart ⟨"plan_pg7", "ignored content", true, true, 42⟩ = 1 :=
  ⟨(c5_filename_hint ⟨"Drawing_Pg3-5", "ignored content", true, true, 42⟩ rfl).1
      3 5 (by decide) (by decide),
   (c5_filename_hint ⟨"plan_pg7", "ignored content", true, true, 42⟩ rfl).2
      (by decide) 7 (by decide)⟩

-- ===== C6 =====

instance maxRightCommutative : RightCommutative (max : Nat → Nat → Nat) :=
  ⟨fun b a c => by omega⟩

/-- An SVG content with the fifteen distinct ids page1 .. page15 but ten further
duplicate occurrences of `id="page1"`, 25 regex matches in all. -/
def c6dupContent : String := "id=\"page1\" id=\"page2\" id=\"page3\" id=\"page4\" id=\"page5\" id=\"page6\" id=\"page7\" id=\"page8\" id=\"page9\" id=\"page10\" id=\"page11\" id=\"page12\" id=\"page13\" id=\"page14\" id=\"page15\" id=\"page1\" id=\"page1\" id=\"page1\" id=\"page1\" id=\"page1\" id=\"page1\" id=\"page1\" id=\"page1\" id=\"page1\" id=\"page1\""

/-- The duplicate-id input: no filename hint, readable file. -/
def c6dupInput : SvgInput := ⟨"doc", c6dupContent, true, true, 5000⟩

set_option maxRecDepth 40000 in
/-- C6 counterexample: the distinct id count is 15 (at most 20), the sorted
number sequence starts at 1, and the maximum id number is 15, yet the estimator
returns 1 and not 15 — utils.py line 108 bounds `len(page_numbers)`, which keeps
duplicate matches, and here there are 25 of them. -/
theorem c6_counterexample :
    (pageIdNums c6dupContent).dedup.length = 15 ∧
    (List.insertionSort (fun a b => a ≤ b) (pageIdNums c6dupContent)).head? = some 1 ∧
    (pageIdNums c6dupContent).foldl max 0 = 15 ∧
    get_svg_pages_smart c6dupInput = 1 ∧
    get_svg_pages_smart c6dupInput ≠ 15 := by decide

/-- C6 amended: with no filename hint, when the page-id scan finds ids whose
sorted number sequence starts at 0 or 1 and the total match count — duplicate
occurrences included, since utils.py line 108 bounds `len(page_numbers)` — is at
most 20, `get_svg_pages_smart` returns the maximum id number, plus one when the
sequence is zero-based. -/
theorem c6_structural_scan (s : SvgInput) (hr : s.readable = true)
    (hrange : searchRange (s.stem.data.map lowerChar) = none)
    (hsingle : searchSingle (s.stem.data.map lowerChar) = none)
    (f : Nat) (t : List Nat)
    (hsort : List.insertionSort (fun a b => a ≤ b) (pageIdNums s.content) = f :: t)
    (hf : f = 0 ∨ f = 1)
    (hlen : (pageIdNums s.content).length ≤ 20) :
    get_svg_pages_smart s =
      (if f = 1 then (pageIdNums s.content).foldl max 0
       else (pageIdNums s.content).foldl max 0 + 1) := by
  have hperm : (List.insertionSort (fun a b : Nat => a ≤ b) (pageIdNums s.content)).foldl max 0
      = (pageIdNums s.content).foldl max 0 :=
    (List.perm_insertionSort _ (pageIdNums s.content)).foldl_eq 0
  unfold get_svg_pages_smart
  rw [hr, if_pos rfl]
  unfold smartBody
  rw [hrange]
  unfold smartNoRange
  rw [hsingle]
  unfold smartStructural method2
  cases hids : pageIdNums s.content with
  | nil => rw [hids] at hsort; simp [List.insertionSort] at hsort
  | cons n rest =>
    rw [hids] at hsort hperm hlen
    simp only [hsort]
    rw [if_pos ⟨hf, hlen⟩]
    rw [hsort] at hperm
    rw [hperm]

/-- C6 witness: ids page1, page2, page3 give an estimate of 3. -/
theorem c6_structural_scan_witness :
    get_svg_pages_smart ⟨"doc", "id=\"page1\" id=\"page2\" id=\"page3\"", true, true, 100⟩ = 3 := by
  have h := c6_structural_scan ⟨"doc", "id=\"page1\" id=\"page2\" id=\"page3\"", true, true, 100⟩
    rfl (by decide) (by decide) 1 [2, 3] (by decide) (Or.inr rfl) (by decide)
  simpa using h

-- ===== C7 =====

/-- C7: for a page index greater than 1 the whole-document fallback is never the
succeeding strategy; success can only come from by-id (whenever its method
returns True) or from by-area (exactly when by-id failed and by-area returned
True), the methods being tried in that fixed order, and an export that returns a
file went through one of those two. -/
theorem c7_strategy_order (e : ExportEnv) (pn : Nat) (h : 1 < pn) :
    tryMethods e pn ≠ some Strategy.wholeDoc ∧
    (tryMethods e pn = some Strategy.byId ↔ e.byIdOk = true) ∧
    (tryMethods e pn = some Strategy.byArea ↔ (e.byIdOk = false ∧ e.byAreaOk = true)) ∧
    (tryMethods e pn = none ↔ (e.byIdOk = false ∧ e.byAreaOk = false)) ∧
    (export_svg_page e pn ≠ none →
      tryMethods e pn = some Strategy.byId ∨ tryMethods e pn = some Strategy.byArea) := by
  have h1 : (pn == 1) = false := beq_eq_false_iff_ne.mpr (by omega)
  cases hb : e.byIdOk <;> cases ha : e.byAreaOk <;>
    simp [tryMethods, methodOrder, List.find?, methodSucceeds, h1, hb, ha, export_svg_page]

/-- An environment where only the by-area strategy works. -/
def strategyEnv : ExportEnv :=
  ⟨false, true, false, true, 100, true, true, 600, false, false, false, false⟩

/-- C7 witness: at page 2 the whole-document fallback is never the succeeding
strategy. -/
theorem c7_strategy_order_witness :
    tryMethods strategyEnv 2 ≠ some Strategy.wholeDoc :=
  (c7_strategy_order strategyEnv 2 (by omega)).1

-- ===== C8 =====

/-- C8: when the export succeeded but pypdf reports a first-page width above
2000 points, the result of the call is exactly the result of `_fix_wide_page`:
the wide file is never returned, the page's result is the area-retried file when
the retry succeeds and its output is readable with pages, and the page fails
(`none`) when the retry fails. -/
theorem c8_wide_page_retry (e : ExportEnv) (pn : Nat)
    (hm : tryMethods e pn ≠ none) (hw : e.fileWritten = true) (hs : 0 < e.fileSize)
    (hr : e.readPdfOk = true) (hp : e.hasPages = true) (hwide : 2000 < e.width) :
    export_svg_page e pn = fix_wide_page e ∧
    export_svg_page e pn ≠ some ExportResult.original ∧
    (e.fixAreaOk = true ∧ e.fixFileWritten = true ∧ e.fixReadOk = true ∧
        e.fixHasPages = true →
      export_svg_page e pn = some ExportResult.fixedByArea) ∧
    (¬(e.fixAreaOk = true ∧ e.fixFileWritten = true ∧ e.fixReadOk = true ∧
        e.fixHasPages = true) →
      export_svg_page e pn = none) := by
  obtain ⟨m, hm2⟩ := Option.ne_none_iff_exists'.mp hm
  have hexp : export_svg_page e pn = fix_wide_page e := by
    unfold export_svg_page
    rw [hm2]
    simp [hw, hs, hr, hp, hwide]
  refine ⟨hexp, ?_, ?_, ?_⟩
  · rw [hexp]
    unfold fix_wide_page
    split_ifs <;> simp
  · rintro ⟨h1, h2, h3, h4⟩
    rw [hexp]
    simp [fix_wide_page, h1, h2, h3, h4]
  · intro hn
    rw [hexp]
    unfold fix_wide_page
    split_ifs with f1 f2 f3 f4
    · exact absurd ⟨f1, f2, f3, f4⟩ hn
    all_goals rfl

/-- An environment where by-id succeeds but yields a 2500-point-wide page and the
area retry then succeeds. -/
def wideEnv : ExportEnv :=
  ⟨true, false, false, true, 100, true, true, 2500, true, true, true, true⟩

/-- C8 witness: the wide export is repaired by the area retry. -/
theorem c8_wide_page_retry_witness :
    export_svg_page wideEnv 1 = some ExportResult.fixedByArea :=
  (c8_wide_page_retry wideEnv 1 (by decide) rfl (by decide) rfl rfl (by decide)).2.2.1
    ⟨rfl, rfl, rfl, rfl⟩

-- ===== C9 =====

theorem foldl_replaceChar (l : List Char) :
    ∀ s : List Char, List.foldl replaceChar s l =
      s.map (fun c => if c ∈ l then '_' else c) := by
  induction l with
  | nil =>
    intro s
    simp
  | cons c cl ih =>
    intro s
    rw [List.foldl_cons, ih (replaceChar s c)]
    unfold replaceChar
    rw [List.map_map]
    congr 1
    funext x
    by_cases hx : x = c
    · subst hx
      simp [Function.comp, List.mem_cons]
    · simp [Function.comp, List.mem_cons, hx]

/-- C9: the per-page output name is the sanitized stem, then `_page`, then the
zero-padded page index, then `.pdf`; sanitization replaces exactly the
characters of `invalidChars` by underscores and leaves every other character
unchanged. Concretely, stem `my<doc>` and page 7 give `my_doc__page007.pdf`. -/
theorem c9_output_naming :
    (∀ stem n, export_pdf_name stem n =
      stem.map (fun c => if c ∈ invalidChars then '_' else c) ++
        "_page".data ++ pad3 n ++ ".pdf".data) ∧
    export_pdf_name "my<doc>".data 7 = "my_doc__page007.pdf".data := by
  constructor
  · intro stem n
    unfold export_pdf_name sanitize_filename
    rw [foldl_replaceChar]
  · decide
